import Mathlib

/-
Verification of the careercompass API authentication/registration flow
(src/careercompass/main.py) against its specification.

The repository source contains only main.py; the helper modules it imports
(.auth, .crud, .schemas) are absent, so their operations are modelled from
the specification text, as noted in the individual doc comments.  Every
handler in main.py is embedded as a pure Lean function: the database is an
explicit list of user records, and an HTTP outcome is an Except carrying
either an HTTPError (a raised HTTPException) or the success body.
-/

namespace CareerCompass

/-- A stored user record: unique email, hashed password, active flag and an
activation code (spec section 3, data model for User; the ORM model file is
not part of src/). -/
structure UserRecord where
  email : String
  hashed_password : String
  is_active : Bool
  activation_code : String
deriving DecidableEq, Repr

/-- Modelled from the spec: the password hashing function used by the absent
auth module.  The spec only requires that stored credentials are hashed; the
model uses an injective tagging function. -/
def hash_password (p : String) : String := "hash." ++ p

/-- Modelled from the spec: password verification compares the hash of the
presented password with the stored hash. -/
def verify_password (plain hashed : String) : Bool := hash_password plain == hashed

/-- Modelled from the spec: crud.get_user_by_email, the lookup-by-email query
of the persistence layer (not in src/): first record whose email matches. -/
def get_user_by_email (db : List UserRecord) (email : String) : Option UserRecord :=
  db.find? (fun u => u.email == email)

/-- Modelled from the spec: authenticate(email, password) looks the user up by
email and fails (returns none) if the user is absent or the password does not
match the stored hash; both failures collapse to the same outward signal. -/
def authenticate_user (db : List UserRecord) (username password : String) :
    Option UserRecord :=
  match get_user_by_email db username with
  | none => none
  | some u => if verify_password password u.hashed_password then some u else none

/-- Modelled from the spec: the configured token lifetime in minutes, read
once at startup; its concrete value is not shown in src/. -/
def ACCESS_TOKEN_EXPIRE_MINUTES : Nat := 30

/-- The payload of a signed token: subject (user email) and an absolute
expiry timestamp, in minutes (spec section 3, Token). -/
structure TokenPayload where
  sub : String
  exp : Nat
deriving DecidableEq, Repr

/-- Modelled from the spec: the signature over a token payload, computed from
a process-wide secret.  The model makes the signature a function of the
secret and the payload, so a signature verifies iff it was produced with the
same secret over the same payload. -/
def sign (secret : String) (p : TokenPayload) : String :=
  secret ++ "." ++ p.sub ++ "." ++ toString p.exp

/-- A token as presented on the wire: either undecodable garbage or a payload
together with a (claimed) signature. -/
inductive TokenWire where
  | malformed : TokenWire
  | signed : TokenPayload → String → TokenWire
deriving DecidableEq, Repr

/-- Modelled from the spec: create_access_token produces a signed token whose
payload embeds the subject and an absolute expiry equal to issuance time plus
the requested lifetime. -/
def create_access_token (secret sub : String) (now expires_delta : Nat) : TokenWire :=
  TokenWire.signed ⟨sub, now + expires_delta⟩ (sign secret ⟨sub, now + expires_delta⟩)

/-- Modelled from the spec: decoding verifies the signature and the expiry;
a malformed token, a wrong signature, or an expiry not in the future all
yield none. -/
def decode_token (secret : String) (now : Nat) : TokenWire → Option TokenPayload
  | TokenWire.malformed => none
  | TokenWire.signed p s =>
    if s == sign secret p && decide (now < p.exp) then some p else none

/-- A raised HTTPException: status code, detail string and response headers. -/
structure HTTPError where
  status_code : Nat
  detail : String
  headers : List (String × String)
deriving DecidableEq, Repr

/-- The 401 raised by the current-user resolution path (spec section 7:
authentication failures are 401 with a bearer-challenge header). -/
def credentials_error : HTTPError :=
  ⟨401, "Could not validate credentials", [("WWW-Authenticate", "Bearer")]⟩

/-- Modelled from the spec: resolve_current_user verifies signature and
expiry, extracts the subject and loads the user; it fails with an
authentication error if the token is malformed, expired, incorrectly signed,
or the subject no longer exists. -/
def get_current_user (secret : String) (now : Nat) (db : List UserRecord)
    (tok : TokenWire) : Except HTTPError UserRecord :=
  match decode_token secret now tok with
  | none => Except.error credentials_error
  | some p =>
    match get_user_by_email db p.sub with
    | none => Except.error credentials_error
    | some u => Except.ok u

/-- Modelled from the spec: get_current_active_user (imported by main.py from
the absent auth module) additionally rejects inactive accounts, per the spec
invariant that a user is never issued a current-user identity while inactive
and section 7, which routes the inactive-subject case to 401. -/
def get_current_active_user (secret : String) (now : Nat) (db : List UserRecord)
    (tok : TokenWire) : Except HTTPError UserRecord :=
  match get_current_user secret now db tok with
  | Except.error e => Except.error e
  | Except.ok u => if u.is_active then Except.ok u else Except.error credentials_error

/-- Modelled from the spec: the public User schema, the response model of
GET /user/me; it exposes the public fields only, not the hashed password or
the activation code. -/
structure User where
  email : String
  is_active : Bool
deriving DecidableEq, Repr

/-- The projection applied by response_model=User: a stored record mapped to
its public representation. -/
def toPublicUser (u : UserRecord) : User := ⟨u.email, u.is_active⟩

/-- The Token response schema of POST /token. -/
structure Token where
  access_token : TokenWire
  token_type : String
deriving DecidableEq, Repr

/-- The 401 raised by login_for_access_token on bad credentials
(main.py lines 48-53). -/
def incorrect_credentials_error : HTTPError :=
  ⟨401, "Incorrect username or password", [("WWW-Authenticate", "Bearer")]⟩

/-- POST /token handler (main.py lines 41-60): authenticate, on failure raise
401 with the bearer challenge, on success issue a token whose subject is the
stored email of the user, expiring ACCESS_TOKEN_EXPIRE_MINUTES after issuance.
The second component is the database after the request (login writes
nothing). -/
def login_for_access_token (db : List UserRecord) (username password secret : String)
    (now : Nat) : (Except HTTPError Token) × List UserRecord :=
  match authenticate_user db username password with
  | none => (Except.error incorrect_credentials_error, db)
  | some user =>
    (Except.ok ⟨create_access_token secret user.email now ACCESS_TOKEN_EXPIRE_MINUTES,
                "bearer"⟩, db)

/-- The CreateUser request schema of POST /user (spec: JSON body with email,
password; the schema file is not in src/). -/
structure CreateUser where
  email : String
  password : String
deriving DecidableEq, Repr

/-- Modelled from the spec: the generated activation code attached to a new
registration; generation is opaque in the spec, modelled as a function of the
email. -/
def generate_activation_code (email : String) : String := "act." ++ email

/-- Modelled from the spec: crud.create_user persists a new inactive user
with a hashed password and a generated activation code, and returns the
created record. -/
def create_user (db : List UserRecord) (user : CreateUser) :
    UserRecord × List UserRecord :=
  let u : UserRecord :=
    ⟨user.email, hash_password user.password, false, generate_activation_code user.email⟩
  (u, db ++ [u])

/-- The 400 raised by register_new_user on a duplicate email
(main.py lines 66-70); no headers are attached. -/
def email_registered_error : HTTPError := ⟨400, "Email already registered", []⟩

/-- POST /user handler (main.py lines 63-71): 400 if the email is already
registered, otherwise persist via create_user and return its result verbatim
(note: the route declares no response_model). -/
def register_new_user (db : List UserRecord) (user : CreateUser) :
    (Except HTTPError UserRecord) × List UserRecord :=
  match get_user_by_email db user.email with
  | some _ => (Except.error email_registered_error, db)
  | none =>
    let r := create_user db user
    (Except.ok r.1, r.2)

/-- Sets the active flag of the first record with the given email, leaving
every other record untouched (the persistence-layer mark-active update). -/
def set_active_by_email : List UserRecord → String → List UserRecord
  | [], _ => []
  | u :: rest, e =>
    if u.email == e then { u with is_active := true } :: rest
    else u :: set_active_by_email rest e

/-- Modelled from the spec: crud.activate_user looks the user up by email and
compares the activation code; on match it marks the record active and reports
success, on mismatch or missing user it reports failure and changes
nothing. -/
def activate_user (db : List UserRecord) (user_email activation_code : String) :
    Bool × List UserRecord :=
  match get_user_by_email db user_email with
  | none => (false, db)
  | some u =>
    if u.activation_code == activation_code then (true, set_active_by_email db user_email)
    else (false, db)

/-- The JSON body returned by the activation endpoint. -/
structure StatusBody where
  status : String
deriving DecidableEq, Repr

/-- POST /user/activate/ handler (main.py lines 74-81): delegates to
activate_user and maps its boolean outcome to a normal response body; no
branch raises. -/
def activate_registered_user (db : List UserRecord) (email activation_code : String) :
    (Except HTTPError StatusBody) × List UserRecord :=
  let r := activate_user db email activation_code
  if r.1 then (Except.ok ⟨"success"⟩, r.2) else (Except.ok ⟨"failed"⟩, r.2)

/-- GET /user/me handler (main.py lines 84-86): returns the user resolved by
get_current_active_user, serialized through response_model=User. -/
def get_logged_in_user (secret : String) (now : Nat) (db : List UserRecord)
    (tok : TokenWire) : Except HTTPError User :=
  match get_current_active_user secret now db tok with
  | Except.error e => Except.error e
  | Except.ok u => Except.ok (toPublicUser u)

/-- The HTTP status of an outcome: a raised HTTPException carries its own
status code, a plain return is serialized with status 200 (the framework
default for these routes). -/
def httpStatus {α : Type} : Except HTTPError α → Nat
  | Except.error e => e.status_code
  | Except.ok _ => 200

/-
Helper lemmas shared by the claim theorems.
-/

theorem authenticate_user_none_of_missing {db : List UserRecord} {username password : String}
    (h : get_user_by_email db username = none) :
    authenticate_user db username password = none := by
  simp [authenticate_user, h]

theorem authenticate_user_none_of_wrong_password {db : List UserRecord}
    {username password : String} {u : UserRecord}
    (h : get_user_by_email db username = some u)
    (hne : hash_password password ≠ u.hashed_password) :
    authenticate_user db username password = none := by
  simp [authenticate_user, h, verify_password, hne]

theorem authenticate_user_some {db : List UserRecord} {username password : String}
    {u : UserRecord} (h : get_user_by_email db username = some u)
    (hpw : hash_password password = u.hashed_password) :
    authenticate_user db username password = some u := by
  simp [authenticate_user, h, verify_password, hpw]

/-
Claim theorems.
-/

/-- C4: a POST /token request whose credentials do not authenticate (missing
email or password hash mismatch) is answered with HTTP 401, detail
"Incorrect username or password", and the response header
WWW-Authenticate: Bearer. -/
theorem login_bad_credentials_401_bearer
    (db : List UserRecord) (username password secret : String) (now : Nat)
    (h : get_user_by_email db username = none ∨
         ∃ u, get_user_by_email db username = some u ∧
              hash_password password ≠ u.hashed_password) :
    (login_for_access_token db username password secret now).1 =
      Except.error ⟨401, "Incorrect username or password", [("WWW-Authenticate", "Bearer")]⟩ := by
  have hauth : authenticate_user db username password = none := by
    rcases h with h | ⟨u, hu, hne⟩
    · exact authenticate_user_none_of_missing h
    · exact authenticate_user_none_of_wrong_password hu hne
  simp [login_for_access_token, hauth, incorrect_credentials_error]

/-- C4 witness: concrete failing login evaluated at a one-user database. -/
theorem login_bad_credentials_401_bearer_witness :
    (login_for_access_token [⟨"a@x", hash_password "pw", true, "c"⟩] "a@x" "wrong" "k" 0).1 =
      Except.error ⟨401, "Incorrect username or password", [("WWW-Authenticate", "Bearer")]⟩ :=
  login_bad_credentials_401_bearer [⟨"a@x", hash_password "pw", true, "c"⟩] "a@x" "wrong" "k" 0
    (Or.inr ⟨⟨"a@x", hash_password "pw", true, "c"⟩, by decide⟩)

/-- C5: a login attempt with a registered email but wrong password and a login
attempt with an unregistered email produce identical failure responses, both
equal to the single 401 bearer-challenge error, so the response does not
reveal which case occurred. -/
theorem login_failure_noninterference
    (db1 db2 : List UserRecord) (e1 p1 e2 p2 s1 s2 : String) (n1 n2 : Nat) (u : UserRecord)
    (hfound : get_user_by_email db1 e1 = some u)
    (hwrong : hash_password p1 ≠ u.hashed_password)
    (hmissing : get_user_by_email db2 e2 = none) :
    (login_for_access_token db1 e1 p1 s1 n1).1 = (login_for_access_token db2 e2 p2 s2 n2).1 ∧
    (login_for_access_token db1 e1 p1 s1 n1).1 = Except.error incorrect_credentials_error := by
  have h1 := authenticate_user_none_of_wrong_password hfound hwrong
  have h2 := @authenticate_user_none_of_missing db2 e2 p2 hmissing
  constructor
  · simp [login_for_access_token, h1, h2]
  · simp [login_for_access_token, h1]

/-- C5 witness: the two concrete failure cases evaluated side by side. -/
theorem login_failure_noninterference_witness :
    (login_for_access_token [⟨"a@x", hash_password "pw", true, "c"⟩] "a@x" "bad" "k" 0).1 =
      (login_for_access_token [] "ghost@x" "pw" "k2" 7).1 :=
  (login_failure_noninterference [⟨"a@x", hash_password "pw", true, "c"⟩] [] "a@x" "bad"
      "ghost@x" "pw" "k" "k2" 0 7 ⟨"a@x", hash_password "pw", true, "c"⟩
      (by decide) (by decide) (by decide)).1

/-- C9: a successful POST /token returns a Token with token_type "bearer"
whose access token is signed over the stored email of the authenticated user
as subject with expiry exactly ACCESS_TOKEN_EXPIRE_MINUTES after issuance,
and the database after the request is unchanged (no session state). -/
theorem login_success_token_shape
    (db : List UserRecord) (username password secret : String) (now : Nat) (u : UserRecord)
    (hfound : get_user_by_email db username = some u)
    (hpw : hash_password password = u.hashed_password) :
    (login_for_access_token db username password secret now).1 =
      Except.ok ⟨TokenWire.signed ⟨u.email, now + ACCESS_TOKEN_EXPIRE_MINUTES⟩
                   (sign secret ⟨u.email, now + ACCESS_TOKEN_EXPIRE_MINUTES⟩), "bearer"⟩ ∧
    (login_for_access_token db username password secret now).2 = db := by
  have hauth := authenticate_user_some hfound hpw
  constructor
  · simp [login_for_access_token, hauth, create_access_token]
  · simp [login_for_access_token, hauth]

/-- C9 witness: concrete successful login evaluated at a one-user database. -/
theorem login_success_token_shape_witness :
    (login_for_access_token [⟨"a@x", hash_password "pw", true, "c"⟩] "a@x" "pw" "k" 5).1 =
      Except.ok ⟨TokenWire.signed ⟨"a@x", 5 + ACCESS_TOKEN_EXPIRE_MINUTES⟩
                   (sign "k" ⟨"a@x", 5 + ACCESS_TOKEN_EXPIRE_MINUTES⟩), "bearer"⟩ :=
  (login_success_token_shape [⟨"a@x", hash_password "pw", true, "c"⟩] "a@x" "pw" "k" 5
    ⟨"a@x", hash_password "pw", true, "c"⟩ (by decide) (by decide)).1

/-- C1: if the record the presented token resolves to is inactive, GET
/user/me fails with the 401 credentials error, so an inactive user is never
returned as the current user. -/
theorem inactive_user_never_current
    (secret : String) (now : Nat) (db : List UserRecord) (tok : TokenWire) (u : UserRecord)
    (hres : get_current_user secret now db tok = Except.ok u)
    (hinactive : u.is_active = false) :
    get_logged_in_user secret now db tok = Except.error credentials_error ∧
    httpStatus (get_logged_in_user secret now db tok) = 401 := by
  have h : get_current_active_user secret now db tok = Except.error credentials_error := by
    simp [get_current_active_user, hres, hinactive]
  exact ⟨by simp [get_logged_in_user, h], by simp [get_logged_in_user, h, httpStatus, credentials_error]⟩

/-- C1 witness: a validly signed, unexpired token for an inactive stored user
is rejected with the 401 credentials error. -/
theorem inactive_user_never_current_witness :
    get_logged_in_user "k" 0 [⟨"a@x", hash_password "pw", false, "c"⟩]
        (TokenWire.signed ⟨"a@x", 9⟩ (sign "k" ⟨"a@x", 9⟩)) =
      Except.error credentials_error :=
  (inactive_user_never_current "k" 0 [⟨"a@x", hash_password "pw", false, "c"⟩]
      (TokenWire.signed ⟨"a@x", 9⟩ (sign "k" ⟨"a@x", 9⟩))
      ⟨"a@x", hash_password "pw", false, "c"⟩ (by rfl) (by decide)).1

/-- C7: POST /user/activate/ never raises: for every input the response is a
normal 200 whose body is exactly status "success" when activation succeeded
and exactly status "failed" otherwise. -/
theorem activation_endpoint_always_200
    (db : List UserRecord) (email activation_code : String) :
    ((activate_registered_user db email activation_code).1 = Except.ok ⟨"success"⟩ ↔
       (activate_user db email activation_code).1 = true) ∧
    ((activate_registered_user db email activation_code).1 = Except.ok ⟨"failed"⟩ ↔
       (activate_user db email activation_code).1 = false) ∧
    httpStatus (activate_registered_user db email activation_code).1 = 200 := by
  unfold activate_registered_user
  cases h : (activate_user db email activation_code).1 <;> simp [h, httpStatus]

/-- C3: a token that is malformed, expired, incorrectly signed, or whose
subject no longer exists in the database is rejected by GET /user/me with the
401 credentials error. -/
theorem invalid_token_401
    (secret : String) (now : Nat) (db : List UserRecord) (tok : TokenWire)
    (p : TokenPayload) (s : String)
    (h : tok = TokenWire.malformed ∨
         (tok = TokenWire.signed p s ∧
           (p.exp < now ∨ s ≠ sign secret p ∨ get_user_by_email db p.sub = none))) :
    get_logged_in_user secret now db tok = Except.error credentials_error ∧
    httpStatus (get_logged_in_user secret now db tok) = 401 := by
  have hcur : get_current_user secret now db tok = Except.error credentials_error := by
    rcases h with h | ⟨h, hcase⟩
    · subst h; simp [get_current_user, decode_token]
    · subst h
      rcases hcase with hexp | hsig | hsub
      · have hlt : ¬ now < p.exp := by omega
        simp [get_current_user, decode_token, hlt]
      · simp [get_current_user, decode_token, hsig]
      · unfold get_current_user decode_token
        by_cases hif : s = sign secret p ∧ now < p.exp
        · simp [hif.1, hif.2, hsub]
        · simp [hif, hsub]
  have hact : get_current_active_user secret now db tok = Except.error credentials_error := by
    simp [get_current_active_user, hcur]
  exact ⟨by simp [get_logged_in_user, hact],
         by simp [get_logged_in_user, hact, httpStatus, credentials_error]⟩

/-- C3 witness: a correctly signed token whose expiry lies in the past is
rejected with the 401 credentials error. -/
theorem invalid_token_401_witness :
    get_logged_in_user "k" 10 [⟨"a@x", hash_password "pw", true, "c"⟩]
        (TokenWire.signed ⟨"a@x", 3⟩ (sign "k" ⟨"a@x", 3⟩)) =
      Except.error credentials_error :=
  (invalid_token_401 "k" 10 [⟨"a@x", hash_password "pw", true, "c"⟩]
      (TokenWire.signed ⟨"a@x", 3⟩ (sign "k" ⟨"a@x", 3⟩)) ⟨"a@x", 3⟩ (sign "k" ⟨"a@x", 3⟩)
      (Or.inr ⟨rfl, Or.inl (by decide)⟩)).1

/-- C2: round trip — a token issued by POST /token for a user whose password
matches the stored hash, presented to GET /user/me before its expiry while
the user is still present and active, yields status 200 and the public
representation of that same user. -/
theorem token_roundtrip
    (secret pw : String) (db1 db2 : List UserRecord) (u : UserRecord) (now later : Nat)
    (hfind1 : get_user_by_email db1 u.email = some u)
    (hpw : u.hashed_password = hash_password pw)
    (hfind2 : get_user_by_email db2 u.email = some u)
    (hactive : u.is_active = true)
    (hfresh : later < now + ACCESS_TOKEN_EXPIRE_MINUTES) :
    (login_for_access_token db1 u.email pw secret now).1 =
      Except.ok ⟨create_access_token secret u.email now ACCESS_TOKEN_EXPIRE_MINUTES, "bearer"⟩ ∧
    get_logged_in_user secret later db2
        (create_access_token secret u.email now ACCESS_TOKEN_EXPIRE_MINUTES) =
      Except.ok (toPublicUser u) ∧
    httpStatus (get_logged_in_user secret later db2
        (create_access_token secret u.email now ACCESS_TOKEN_EXPIRE_MINUTES)) = 200 := by
  have hauth := authenticate_user_some hfind1 hpw.symm
  have hdec : decode_token secret later
      (create_access_token secret u.email now ACCESS_TOKEN_EXPIRE_MINUTES) =
      some ⟨u.email, now + ACCESS_TOKEN_EXPIRE_MINUTES⟩ := by
    simp [create_access_token, decode_token, hfresh]
  have hme : get_logged_in_user secret later db2
      (create_access_token secret u.email now ACCESS_TOKEN_EXPIRE_MINUTES) =
      Except.ok (toPublicUser u) := by
    simp [get_logged_in_user, get_current_active_user, get_current_user, hdec, hfind2, hactive]
  refine ⟨by simp [login_for_access_token, hauth], hme, by simp [hme, httpStatus]⟩

/-- C2 witness: concrete round trip through login and the current-user
endpoint for an active stored user. -/
theorem token_roundtrip_witness :
    get_logged_in_user "k" 5 [⟨"a@x", hash_password "pw", true, "c"⟩]
        (create_access_token "k" "a@x" 0 ACCESS_TOKEN_EXPIRE_MINUTES) =
      Except.ok (toPublicUser ⟨"a@x", hash_password "pw", true, "c"⟩) :=
  (token_roundtrip "k" "pw" [⟨"a@x", hash_password "pw", true, "c"⟩]
      [⟨"a@x", hash_password "pw", true, "c"⟩] ⟨"a@x", hash_password "pw", true, "c"⟩ 0 5
      (by decide) (by decide) (by decide) (by decide) (by decide)).2.1

/-- C10: the successful POST /user response is the record returned by
create_user verbatim — a full stored record whose hashed_password and
activation_code fields are exposed — while GET /user/me serializes its result
through the public User projection of response_model=User. -/
theorem register_returns_record_verbatim
    (db db2 : List UserRecord) (cu : CreateUser) (secret : String) (now : Nat)
    (tok : TokenWire) (v : UserRecord)
    (hfresh : get_user_by_email db cu.email = none)
    (hme : get_current_active_user secret now db2 tok = Except.ok v) :
    (register_new_user db cu).1 = Except.ok (create_user db cu).1 ∧
    (create_user db cu).1.hashed_password = hash_password cu.password ∧
    (create_user db cu).1.activation_code = generate_activation_code cu.email ∧
    get_logged_in_user secret now db2 tok = Except.ok (toPublicUser v) := by
  refine ⟨by simp [register_new_user, hfresh], by simp [create_user], by simp [create_user],
          by simp [get_logged_in_user, hme]⟩

/-- C10 witness: concrete registration response next to a concrete
current-user response. -/
theorem register_returns_record_verbatim_witness :
    (register_new_user [] ⟨"a@x", "pw"⟩).1 = Except.ok (create_user [] ⟨"a@x", "pw"⟩).1 :=
  (register_returns_record_verbatim [] [⟨"b@x", hash_password "q", true, "c"⟩]
      ⟨"a@x", "pw"⟩ "k" 0 (TokenWire.signed ⟨"b@x", 9⟩ (sign "k" ⟨"b@x", 9⟩))
      ⟨"b@x", hash_password "q", true, "c"⟩ (by decide) (by rfl)).1

theorem get_user_by_email_append_none {db l2 : List UserRecord} {e : String}
    (h : get_user_by_email db e = none) :
    get_user_by_email (db ++ l2) e = get_user_by_email l2 e := by
  unfold get_user_by_email at h ⊢
  simp [List.find?_append, h]

theorem set_active_by_email_find {db : List UserRecord} {e : String} {u : UserRecord}
    (h : get_user_by_email db e = some u) :
    get_user_by_email (set_active_by_email db e) e = some { u with is_active := true } := by
  induction db with
  | nil => simp [get_user_by_email] at h
  | cons v rest ih =>
    by_cases hv : v.email = e
    · have hu : v = u := by simpa [get_user_by_email, hv] using h
      subst hu
      simp [set_active_by_email, hv, get_user_by_email]
    · have hrest : get_user_by_email rest e = some u := by
        simpa [get_user_by_email, hv] using h
      simpa [set_active_by_email, hv, get_user_by_email] using ih hrest

theorem set_active_by_email_pointwise (db : List UserRecord) (e : String) :
    List.Forall₂
      (fun old new => new = old ∨ (old.email = e ∧ new = { old with is_active := true }))
      db (set_active_by_email db e) := by
  induction db with
  | nil => simp [set_active_by_email]
  | cons v rest ih =>
    by_cases hv : v.email = e
    · have hbeq : (v.email == e) = true := by simp [hv]
      simp only [set_active_by_email, hbeq, if_true]
      exact List.Forall₂.cons (Or.inr ⟨hv, rfl⟩)
        (List.forall₂_same.mpr fun x _ => Or.inl rfl)
    · simp only [set_active_by_email]
      have hbeq : (v.email == e) = false := by simp [hv]
      simp only [hbeq, Bool.false_eq_true, if_false]
      exact List.Forall₂.cons (Or.inl rfl) ih

theorem set_active_by_email_idem (db : List UserRecord) (e : String) :
    set_active_by_email (set_active_by_email db e) e = set_active_by_email db e := by
  induction db with
  | nil => simp [set_active_by_email]
  | cons v rest ih =>
    by_cases hv : v.email = e
    · simp [set_active_by_email, hv]
    · simp [set_active_by_email, hv, ih]

/-- C6: POST /user fails with 400 "Email already registered" when the email
is taken; otherwise it persists a new inactive record with the hashed
password and a generated activation code, and an immediate second
registration with the same email gets the 400. -/
theorem register_email_conflict
    (db db2 : List UserRecord) (cu cu2 : CreateUser) (w : UserRecord)
    (hdup : get_user_by_email db2 cu2.email = some w)
    (hfresh : get_user_by_email db cu.email = none) :
    register_new_user db2 cu2 = (Except.error email_registered_error, db2) ∧
    httpStatus (register_new_user db2 cu2).1 = 400 ∧
    register_new_user db cu =
      (Except.ok ⟨cu.email, hash_password cu.password, false, generate_activation_code cu.email⟩,
       db ++ [⟨cu.email, hash_password cu.password, false, generate_activation_code cu.email⟩]) ∧
    (register_new_user (register_new_user db cu).2 cu).1 =
      Except.error email_registered_error := by
  have h1 : register_new_user db2 cu2 = (Except.error email_registered_error, db2) := by
    simp [register_new_user, hdup]
  have h3 : register_new_user db cu =
      (Except.ok ⟨cu.email, hash_password cu.password, false, generate_activation_code cu.email⟩,
       db ++ [⟨cu.email, hash_password cu.password, false, generate_activation_code cu.email⟩]) := by
    simp [register_new_user, hfresh, create_user]
  have hsnd : (register_new_user db cu).2 =
      db ++ [⟨cu.email, hash_password cu.password, false, generate_activation_code cu.email⟩] := by
    rw [h3]
  have hfind : get_user_by_email
      (db ++ [⟨cu.email, hash_password cu.password, false, generate_activation_code cu.email⟩])
      cu.email =
      some ⟨cu.email, hash_password cu.password, false, generate_activation_code cu.email⟩ := by
    rw [get_user_by_email_append_none hfresh]
    simp [get_user_by_email]
  refine ⟨h1, by simp [h1, httpStatus, email_registered_error], h3, ?_⟩
  rw [hsnd]
  simp [register_new_user, hfind]

/-- C6 witness: registering a fresh email and then registering it again
immediately yields the 400 conflict on the second call. -/
theorem register_email_conflict_witness :
    (register_new_user (register_new_user [] ⟨"a@x", "pw"⟩).2 ⟨"a@x", "pw"⟩).1 =
      Except.error email_registered_error :=
  (register_email_conflict [] [⟨"b@x", hash_password "q", true, "cd"⟩]
      ⟨"a@x", "pw"⟩ ⟨"b@x", "pw2"⟩ ⟨"b@x", hash_password "q", true, "cd"⟩
      (by decide) (by decide)).2.2.2

/-- C8: activation with a matching (email, code) pair reports success and
marks exactly that record active — every record keeps its email, password
hash and code, no record is removed, the flag only ever moves to true, and a
repeated activation changes nothing further (at most one transition); with a
missing email or a mismatched code it reports failure and leaves the database
untouched. -/
theorem activate_user_correct
    (db1 db2 : List UserRecord) (e1 c1 e2 c2 : String) (u : UserRecord)
    (hfind : get_user_by_email db1 e1 = some u)
    (hcode : u.activation_code = c1)
    (hfail : get_user_by_email db2 e2 = none ∨
             ∃ v, get_user_by_email db2 e2 = some v ∧ v.activation_code ≠ c2) :
    activate_user db1 e1 c1 = (true, set_active_by_email db1 e1) ∧
    get_user_by_email (set_active_by_email db1 e1) e1 = some { u with is_active := true } ∧
    List.Forall₂
      (fun old new => new = old ∨ (old.email = e1 ∧ new = { old with is_active := true }))
      db1 (set_active_by_email db1 e1) ∧
    (set_active_by_email db1 e1).length = db1.length ∧
    set_active_by_email (set_active_by_email db1 e1) e1 = set_active_by_email db1 e1 ∧
    activate_user db2 e2 c2 = (false, db2) := by
  refine ⟨by simp [activate_user, hfind, hcode], set_active_by_email_find hfind,
          set_active_by_email_pointwise db1 e1,
          (set_active_by_email_pointwise db1 e1).length_eq.symm,
          set_active_by_email_idem db1 e1, ?_⟩
  rcases hfail with h | ⟨v, hv, hne⟩
  · simp [activate_user, h]
  · simp [activate_user, hv, hne]

/-- C8 witness: concrete activation of an inactive record with the matching
code reports success and applies the mark-active update. -/
theorem activate_user_correct_witness :
    activate_user [⟨"a@x", hash_password "pw", false, "cd"⟩] "a@x" "cd" =
      (true, set_active_by_email [⟨"a@x", hash_password "pw", false, "cd"⟩] "a@x") :=
  (activate_user_correct [⟨"a@x", hash_password "pw", false, "cd"⟩] [] "a@x" "cd" "b@x" "z"
      ⟨"a@x", hash_password "pw", false, "cd"⟩ (by decide) (by decide)
      (Or.inl (by decide))).1

end CareerCompass
